import Mathlib

/-!
Verification development for the meeting-assistant pipeline repository.

The repository contains two orchestrator implementations:

* `src/meeting_assistant/orchestrator.py` (package variant, exercised by the
  test suite): mock stage agents, field validation in `generate_report`,
  an absolute-path check in `save_results`.  Modelled in namespace `MA`.
* `src/orchestrator.py` (root prototype, wired to the real agents in
  `src/transcription_agent.py`, `src/summarization_agent.py` and
  `src/action_item_extraction_agent.py`).  Modelled in namespace `Prototype`.

Python dictionaries are modelled by structures; a field of type `Option τ`
models a dictionary key that may be missing, and `Option (Option String)`
models a key that may be missing or hold Python `None`.  External backends
(OpenAI, speech recognition) are modelled as oracle parameters; the file
system is modelled as an association list of paths to contents.  Text handled
by the extraction/summarization algorithms is modelled as `List Char`.
-/

namespace MA

/-- Mirrors the `{"status": ...}` metadata sub-dictionaries of the mock
results in `src/meeting_assistant/orchestrator.py`. -/
structure MetaDict where
  status : String
  deriving DecidableEq

/-- The `{"transcription": ..., "metadata": ...}` sub-dictionary; the inner
key may be missing (`generate_report` reads it with a `.get` default). -/
structure TransDict where
  transcription : Option String
  metadata : MetaDict
  deriving DecidableEq

/-- The `{"summary": ..., "metadata": ...}` sub-dictionary. -/
structure SummDict where
  summary : Option String
  metadata : MetaDict
  deriving DecidableEq

/-- One action-item dictionary.  Each key may be missing (`none`), hold
Python `None` (`some none`) or hold a string (`some (some s)`). -/
structure ItemDict where
  task : Option (Option String)
  assignee : Option (Option String)
  deadline : Option (Option String)
  deriving DecidableEq

/-- The `{"action_items": ..., "metadata": ...}` sub-dictionary. -/
structure ItemsDict where
  action_items : Option (List ItemDict)
  metadata : MetaDict
  deriving DecidableEq

/-- The combined results dictionary; each of the three top-level keys may be
missing (`generate_report` validates their presence). -/
structure ResultsDict where
  transcription : Option TransDict
  summary : Option SummDict
  action_items : Option ItemsDict
  deriving DecidableEq

/-- The constant mock results returned by
`MeetingAssistantOrchestrator.process_meeting`
(`src/meeting_assistant/orchestrator.py`, lines 118-137). -/
def mockResults : ResultsDict where
  transcription := some { transcription := some "Test transcription",
                          metadata := { status := "completed" } }
  summary := some { summary := some "Test summary",
                    metadata := { status := "completed" } }
  action_items := some
    { action_items := some
        [ { task := some (some "Test task"),
            assignee := some (some "John"),
            deadline := some (some "tomorrow") } ],
      metadata := { status := "completed" } }

/-- `MeetingAssistantOrchestrator.process_meeting`: raises `FileNotFoundError`
when the audio path does not exist, otherwise returns the mock results.  The
file system is abstracted by the existence predicate `fileExists`; the method
performs no file writes in the source. -/
def process_meeting (fileExists : String → Bool) (audio_file_path : String) :
    Except String ResultsDict :=
  if fileExists audio_file_path then Except.ok mockResults
  else Except.error ("Audio file not found: " ++ audio_file_path)

/-- Python `f"{item.get(key, dflt)}"`: a missing key renders the default, a
`None` value renders as the string `"None"`, a string renders as itself. -/
def fstr (field : Option (Option String)) (dflt : String) : String :=
  match field with
  | none => dflt
  | some none => "None"
  | some (some s) => s

/-- The three report lines produced for one action item
(`generate_report`, lines 174-176). -/
def itemLines (i : Nat) (item : ItemDict) : String :=
  toString i ++ ". **Task**: " ++ fstr item.task "No task specified" ++ "\n" ++
  "   **Assignee**: " ++ fstr item.assignee "Unassigned" ++ "\n" ++
  "   **Deadline**: " ++ fstr item.deadline "No deadline" ++ "\n\n"

/-- The numbered-item loop of `generate_report` (`enumerate(action_items, 1)`). -/
def renderItems : Nat → List ItemDict → String
  | _, [] => ""
  | i, item :: rest => itemLines i item ++ renderItems (i + 1) rest

/-- `results.get("summary", {}).get("summary", "No summary available")`. -/
def getSummaryText (r : ResultsDict) : String :=
  match r.summary with
  | none => "No summary available"
  | some sd => sd.summary.getD "No summary available"

/-- `results.get("transcription", {}).get("transcription", "No transcription available")`. -/
def getTransText (r : ResultsDict) : String :=
  match r.transcription with
  | none => "No transcription available"
  | some td => td.transcription.getD "No transcription available"

/-- `results.get("action_items", {}).get("action_items", [])`. -/
def getItems (r : ResultsDict) : List ItemDict :=
  match r.action_items with
  | none => []
  | some ad => ad.action_items.getD []

/-- `MeetingAssistantOrchestrator.generate_report`
(`src/meeting_assistant/orchestrator.py`, lines 146-189): validates the three
required top-level keys in order, raising `KeyError` on the first missing one,
then assembles the Markdown report. -/
def generate_report (results : ResultsDict) : Except String String :=
  if results.transcription.isNone then
    Except.error "Missing required field: transcription"
  else if results.summary.isNone then
    Except.error "Missing required field: summary"
  else if results.action_items.isNone then
    Except.error "Missing required field: action_items"
  else
    let action_items := getItems results
    Except.ok ("# Meeting Assistant Report\n\n" ++
      "## Meeting Summary\n\n" ++ getSummaryText results ++ "\n\n" ++
      "## Action Items\n\n" ++
      (if action_items.isEmpty then "No action items identified.\n\n"
       else renderItems 1 action_items) ++
      "## Full Transcription\n\n" ++ getTransText results)

/-- File system model: association list of paths to written result documents
(serialization of the results dictionary is abstracted away; the stored value
is the dictionary itself). -/
abbrev FileSys := List (String × ResultsDict)

/-- Writing a file: replaces any previous entry for the same path. -/
def setFile (fs : FileSys) (path : String) (v : ResultsDict) : FileSys :=
  fs.filter (fun e => e.1 != path) ++ [(path, v)]

/-- `pathlib.Path.is_absolute()` on POSIX: the path starts with a slash. -/
def isAbsolutePath (p : String) : Bool := p.data.head? == some '/'

/-- `MeetingAssistantOrchestrator.save_results`
(`src/meeting_assistant/orchestrator.py`, lines 191-216): rejects absolute
output paths with `ValueError`, otherwise writes the JSON document at exactly
the caller-supplied path. -/
def save_results (results : ResultsDict) (output_file : String) (fs : FileSys) :
    Except String FileSys :=
  if isAbsolutePath output_file then
    Except.error ("Invalid output path: " ++ output_file ++ ". Must be a relative path.")
  else Except.ok (setFile fs output_file results)

end MA

namespace MASpec

/-- Concatenation of a list of strings (used by the spec-side report shape). -/
def concatAll : List String → String
  | [] => ""
  | s :: rest => s ++ concatAll rest

/-- Spec §6: fixed report title heading. -/
def titleSection : String := "# Meeting Assistant Report\n\n"

/-- Spec §6: summary section with fixed heading. -/
def summarySection (s : String) : String := "## Meeting Summary\n\n" ++ s ++ "\n\n"

/-- Spec §6: one numbered action-item entry
`N. **Task**: ... **Assignee**: ... **Deadline**: ...`. -/
def itemEntry (n : Nat) (task assignee deadline : String) : String :=
  toString n ++ ". **Task**: " ++ task ++ "\n" ++
  "   **Assignee**: " ++ assignee ++ "\n" ++
  "   **Deadline**: " ++ deadline ++ "\n\n"

/-- Spec §6: action-items section, numbered from 1, or the placeholder
sentence for an empty list; per the corrected claim, field substitution uses
`fstr`: defaults only for missing keys, `"None"` for explicit null values. -/
def itemsSection (items : List MA.ItemDict) : String :=
  "## Action Items\n\n" ++
  (if items = [] then "No action items identified.\n\n"
   else concatAll ((List.enumFrom 1 items).map (fun p =>
     itemEntry p.1 (MA.fstr p.2.task "No task specified")
       (MA.fstr p.2.assignee "Unassigned")
       (MA.fstr p.2.deadline "No deadline"))))

/-- Spec §6: full-transcription section with fixed heading. -/
def transcriptSection (t : String) : String := "## Full Transcription\n\n" ++ t

/-- Spec §6 report shape: title, summary section, action-items section,
full-transcription section, in that fixed order. -/
def report (summaryText : String) (items : List MA.ItemDict) (transcript : String) :
    String :=
  titleSection ++ summarySection summaryText ++ itemsSection items ++
    transcriptSection transcript

end MASpec

namespace Prototype

/-- Python `\s` (ASCII): space, tab, newline, carriage return, vertical tab,
form feed. -/
def pySpace (c : Char) : Bool :=
  c == ' ' || c == '\t' || c == '\n' || c == '\r' || c == '\x0b' || c == '\x0c'

/-- Python `\w` (ASCII): letters, digits, underscore. -/
def isWordChar (c : Char) : Bool := c.isAlphanum || c == '_'

/-- The character class `[^.!?]`. -/
def notPunct (c : Char) : Bool := !(c == '.' || c == '!' || c == '?')

/-- Python `str.strip()`: drop whitespace from both ends. -/
def pyStrip (s : List Char) : List Char :=
  ((s.dropWhile pySpace).reverse.dropWhile pySpace).reverse

/-- Stage metadata: the `status` entry and the optional `error` entry of the
`metadata` sub-dictionaries produced by the three agents (numeric bookkeeping
entries such as `original_length` are not modelled). -/
structure MetaInfo where
  status : String
  error : Option String
  deriving DecidableEq

/-- Output envelope of `TranscriptionAgent.transcribe`. -/
structure TransRes where
  transcription : List Char
  metadata : MetaInfo
  deriving DecidableEq

/-- Output envelope of `SummarizationAgent.summarize`. -/
structure SummRes where
  summary : List Char
  metadata : MetaInfo
  deriving DecidableEq

/-- One extracted action item (`src/action_item_extraction_agent.py`,
lines 147-151): the `task` string plus optional assignee and deadline. -/
structure ActionItem where
  task : List Char
  assignee : Option (List Char)
  deadline : Option (List Char)
  deriving DecidableEq

/-- Output envelope of `ActionItemExtractionAgent.extract_action_items`. -/
structure ItemsRes where
  action_items : List ActionItem
  metadata : MetaInfo
  deriving DecidableEq

/-- Combined dictionary returned by
`MeetingAssistantOrchestrator.process_meeting` (`src/orchestrator.py`,
lines 137-141). -/
structure MeetingResults where
  transcription : TransRes
  summary : SummRes
  action_items : ItemsRes
  deriving DecidableEq

/-!
Backtracking regular-expression machinery.

A matcher takes the remaining input and returns the list of possible
remainders after a match, in Python backtracking priority order (greedy
quantifiers try the longest consumption first, alternations try their
branches left to right).  A capture group's text is recovered from the
lengths of the remainders before and after the group.
-/

/-- A matcher: remaining input to prioritized list of possible remainders. -/
abbrev ReM := List Char → List (List Char)

/-- Case-insensitive literal (Python `re.IGNORECASE` on ASCII). -/
def reLit (kw : List Char) : ReM := fun s =>
  if (s.take kw.length).map Char.toLower = kw.map Char.toLower then
    [s.drop kw.length]
  else []

/-- Case-sensitive literal. -/
def reLitCS (kw : List Char) : ReM := fun s =>
  if s.take kw.length = kw then [s.drop kw.length] else []

/-- Single character from a class. -/
def reCls (p : Char → Bool) : ReM := fun s =>
  match s with
  | [] => []
  | c :: r => if p c then [r] else []

/-- Sequencing: all continuations of the first matcher, in priority order. -/
def reSeq (a b : ReM) : ReM := fun s => ((a s).map b).flatten

/-- Alternation: left branch's possibilities first. -/
def reAlt (a b : ReM) : ReM := fun s => a s ++ b s

/-- List alternation, left to right. -/
def reAlts (l : List ReM) : ReM := fun s => (l.map (fun m => m s)).flatten

/-- Greedy `?`: try matching first, then the empty match. -/
def reOpt (a : ReM) : ReM := fun s => a s ++ [s]

/-- Greedy `*` over a character class: longest consumption first. -/
def reStar (p : Char → Bool) : ReM := fun s =>
  let run := (s.takeWhile p).length
  (List.range (run + 1)).map (fun j => s.drop (run - j))

/-- Greedy `+` over a character class. -/
def rePlus (p : Char → Bool) : ReM := reSeq (reCls p) (reStar p)

/-- String sugar for case-insensitive literals. -/
def lit (kw : String) : ReM := reLit kw.data

/-- String sugar for case-sensitive literals. -/
def litCS (kw : String) : ReM := reLitCS kw.data

/-- At one position: match `pre`, then `grp`, and return the text consumed by
`grp` on the first (highest-priority) overall success. -/
def reCaptureAt (pre grp : ReM) (s : List Char) : Option (List Char) :=
  (((pre s).map (fun r => (grp r).map (fun r2 => r.take (r.length - r2.length)))).flatten).head?

/-- `re.search` with a single capture group placed after a prefix: scan
positions left to right, returning the group text of the leftmost match. -/
def reSearchCapture (pre grp : ReM) : List Char → Option (List Char)
  | [] => reCaptureAt pre grp []
  | c :: t =>
    match reCaptureAt pre grp (c :: t) with
    | some g => some g
    | none => reSearchCapture pre grp t

/-- Pattern 1, `action_keywords[0]`:
`(?:need to|must|should|will|going to|have to|shall) ([^.!?]*)`. -/
def p1pre : ReM :=
  reSeq (reAlts [lit "need to", lit "must", lit "should", lit "will",
                 lit "going to", lit "have to", lit "shall"])
    (reCls (· == ' '))

/-- The capture group `([^.!?]*)` shared by patterns 1-3. -/
def taskGrp : ReM := reStar notPunct

/-- `re.search` for pattern 1, returning group 1. -/
def searchP1 (s : List Char) : Option (List Char) := reSearchCapture p1pre taskGrp s

/-- Pattern 2, `action_keywords[1]`:
`(?:action item|task|todo|to-do|to do|follow-up|followup)[:\s]* ([^.!?]*)`. -/
def p2pre : ReM :=
  reSeq (reAlts [lit "action item", lit "task", lit "todo", lit "to-do",
                 lit "to do", lit "follow-up", lit "followup"])
    (reSeq (reStar (fun c => c == ':' || pySpace c)) (reCls (· == ' ')))

/-- `re.search` for pattern 2, returning group 1. -/
def searchP2 (s : List Char) : Option (List Char) := reSearchCapture p2pre taskGrp s

/-- The middle of pattern 3:
`(?:\s*will|\s*is going to|\s*needs to|\s*must) ` (with the trailing literal
space), placed between group 1 and group 2. -/
def p3mid : ReM :=
  reSeq (reAlts [reSeq (reStar pySpace) (lit "will"),
                 reSeq (reStar pySpace) (lit "is going to"),
                 reSeq (reStar pySpace) (lit "needs to"),
                 reSeq (reStar pySpace) (lit "must")])
    (reCls (· == ' '))

/-- Backtracking over the greedy `(\w+)` of pattern 3 at one position: try the
longest prefix of the word-character run first (`k` counts down). -/
def p3TryK : Nat → List Char → Option (List Char × List Char)
  | 0, _ => none
  | k + 1, s =>
    match ((p3mid (s.drop (k + 1))).map (fun r2 => r2.takeWhile notPunct)).head? with
    | some g2 => some (s.take (k + 1), g2)
    | none => p3TryK k s

/-- Pattern 3 at one position: `(\w+)` must start here. -/
def p3At (s : List Char) : Option (List Char × List Char) :=
  p3TryK (s.takeWhile isWordChar).length s

/-- `re.search` for pattern 3, `action_keywords[2]`:
`(\w+)(?:\s*will|\s*is going to|\s*needs to|\s*must) ([^.!?]*)`,
returning (group 1, group 2). -/
def searchP3 : List Char → Option (List Char × List Char)
  | [] => none
  | c :: t =>
    match p3At (c :: t) with
    | some g => some g
    | none => searchP3 t

/-- Month alternation of the deadline pattern:
`Jan(?:uary)?|Feb(?:ruary)?|...|Dec(?:ember)?`. -/
def monthRe : ReM :=
  reAlts [reSeq (lit "Jan") (reOpt (lit "uary")),
          reSeq (lit "Feb") (reOpt (lit "ruary")),
          reSeq (lit "Mar") (reOpt (lit "ch")),
          reSeq (lit "Apr") (reOpt (lit "il")),
          lit "May",
          reSeq (lit "Jun") (reOpt (lit "e")),
          reSeq (lit "Jul") (reOpt (lit "y")),
          reSeq (lit "Aug") (reOpt (lit "ust")),
          reSeq (lit "Sep") (reOpt (lit "tember")),
          reSeq (lit "Oct") (reOpt (lit "ober")),
          reSeq (lit "Nov") (reOpt (lit "ember")),
          reSeq (lit "Dec") (reOpt (lit "ember"))]

/-- Capture group of the deadline pattern:
`\d{1,2}(?:st|nd|rd|th)?\s+(?:of\s+)?(?:months)|tomorrow|next week|(?:this|next) month|(?:weekdays)`. -/
def deadlineGrp : ReM :=
  reAlts [reSeq (reCls Char.isDigit)
            (reSeq (reOpt (reCls Char.isDigit))
              (reSeq (reOpt (reAlts [lit "st", lit "nd", lit "rd", lit "th"]))
                (reSeq (rePlus pySpace)
                  (reSeq (reOpt (reSeq (lit "of") (rePlus pySpace))) monthRe)))),
          lit "tomorrow",
          lit "next week",
          reSeq (reAlts [lit "this", lit "next"]) (lit " month"),
          reAlts [lit "Monday", lit "Tuesday", lit "Wednesday", lit "Thursday",
                  lit "Friday", lit "Saturday", lit "Sunday"]]

/-- Prefix of the deadline pattern: `(?:by|before|due)(?:\s*the)?\s*`. -/
def deadlinePre : ReM :=
  reSeq (reAlts [lit "by", lit "before", lit "due"])
    (reSeq (reOpt (reSeq (reStar pySpace) (lit "the"))) (reStar pySpace))

/-- `re.search` for the deadline pattern (`action_keywords[3]`, identical to
`deadline_pattern` on line 142), returning group 1. -/
def searchDeadline (s : List Char) : Option (List Char) :=
  reSearchCapture deadlinePre deadlineGrp s

/-- The middle of the assignee pattern (case-sensitive, no `IGNORECASE`):
`(?:\s+will|\s+should|\s+is going to|\s+needs to)`. -/
def asgMid : ReM :=
  reAlts [reSeq (rePlus pySpace) (litCS "will"),
          reSeq (rePlus pySpace) (litCS "should"),
          reSeq (rePlus pySpace) (litCS "is going to"),
          reSeq (rePlus pySpace) (litCS "needs to")]

/-- Backtracking over the greedy `[a-z]+` of the assignee group: `first` is
the already-matched `[A-Z]` character, `rest` the input after it; the
trailing `\b` requires the next character to be a non-word character (or the
end of input). -/
def asgTryK (first : Char) (rest : List Char) : Nat → Option (List Char)
  | 0 => none
  | k + 1 =>
    let rest2 := rest.drop (k + 1)
    if (match rest2 with | [] => true | d :: _ => !isWordChar d) then
      match (asgMid rest2).head? with
      | some _ => some (first :: rest.take (k + 1))
      | none => asgTryK first rest k
    else asgTryK first rest k

/-- The assignee pattern at one position; `boundary` says whether a word
boundary `\b` holds before this position (start of input or previous
character not a word character). -/
def asgAt (boundary : Bool) (s : List Char) : Option (List Char) :=
  match s with
  | [] => none
  | c :: rest =>
    if boundary && c.isUpper then
      asgTryK c rest (rest.takeWhile Char.isLower).length
    else none

/-- Scan for the assignee pattern
`(\b[A-Z][a-z]+\b)(?:\s+will|\s+should|\s+is going to|\s+needs to)`
(line 137, searched without `IGNORECASE`), tracking the previous character
for the leading `\b`. -/
def searchAssigneeAux : Option Char → List Char → Option (List Char)
  | _, [] => none
  | prev, c :: t =>
    let boundary := match prev with | none => true | some p => !isWordChar p
    match asgAt boundary (c :: t) with
    | some g => some g
    | none => searchAssigneeAux (some c) t

/-- `re.search` for the assignee pattern, returning group 1. -/
def searchAssignee (s : List Char) : Option (List Char) := searchAssigneeAux none s

/-- The `for pattern in self.action_keywords` loop with `break`: group 1 of
the first pattern that matches (pattern 3's group 1 is its `(\w+)` capture;
the fourth keyword pattern is the deadline pattern). -/
def firstTaskGroup (s : List Char) : Option (List Char) :=
  match searchP1 s with
  | some g => some g
  | none =>
    match searchP2 s with
    | some g => some g
    | none =>
      match searchP3 s with
      | some (w, _) => some w
      | none => searchDeadline s

/-- `ActionItemExtractionAgent._extract_from_sentence` (lines 115-151). -/
def extract_from_sentence (sentence : List Char) : Option ActionItem :=
  let s := pyStrip sentence
  if s = [] then none
  else
    match firstTaskGroup s with
    | none => none
    | some g =>
      let task := pyStrip g
      if task = [] then none
      else some { task := task, assignee := searchAssignee s,
                  deadline := searchDeadline s }

/-- `re.split(r'[.!?]\s+', text)` with explicit fuel (one unit per consumed
character; the initial fuel `text.length` always suffices): a sentence
boundary is a punctuation character followed by at least one whitespace
character, consumed greedily. -/
def splitSentencesF : Nat → List Char → List (List Char)
  | _, [] => [[]]
  | 0, s => [s]
  | fuel + 1, c :: rest =>
    if (c == '.' || c == '!' || c == '?') &&
        (match rest with | r :: _ => pySpace r | [] => false) then
      [] :: splitSentencesF fuel (rest.dropWhile pySpace)
    else
      match splitSentencesF fuel rest with
      | [] => [[c]]
      | p :: ps => (c :: p) :: ps

/-- Sentence splitting used by `_extract_with_regex` (line 106). -/
def splitSentences (text : List Char) : List (List Char) :=
  splitSentencesF text.length text

/-- `ActionItemExtractionAgent._extract_with_regex` (lines 103-113): extract
per sentence, appending an item only when it differs from every item
collected so far (exact-duplicate suppression). -/
def extract_with_regex (text : List Char) : List ActionItem :=
  (splitSentences text).foldl
    (fun acc sentence =>
      match extract_from_sentence sentence with
      | some item =>
        if acc.all (fun e => decide (e ≠ item)) then acc ++ [item] else acc
      | none => acc)
    []

/-- Abstraction of `_extract_with_llm` (lines 80-101): the OpenAI structured
call.  `Except.error` models an exception escaping the call;
a malformed-but-returned response is already `Except.ok []` inside the
oracle, matching the bare `except: return []` around the JSON parse. -/
abbrev ExtrOracle := List Char → Except String (List ActionItem)

/-- `ActionItemExtractionAgent._extract_action_items` (lines 62-78): with an
API key use the LLM, falling back to the regex extraction if it raises;
without a key use the regex extraction directly. -/
def extractItemsFromText (api : Option ExtrOracle) (text : List Char) :
    List ActionItem :=
  match api with
  | some f =>
    match f text with
    | Except.ok items => items
    | Except.error _ => extract_with_regex text
  | none => extract_with_regex text

/-- The combined extraction input (lines 33-36): the transcription text,
plus `"\n\n"` and the summary text when a summary dictionary carrying the
`summary` key is supplied. -/
def extractionText (transcription : TransRes) (summary : Option SummRes) :
    List Char :=
  transcription.transcription ++
    (match summary with
     | some sm => '\n' :: '\n' :: sm.summary
     | none => [])

/-- `ActionItemExtractionAgent.extract_action_items` (lines 18-60): empty
combined text raises `ValueError`, converted by the `except` clause into an
error envelope with an empty item list; otherwise the extraction runs and a
completed envelope is returned. -/
def extract_action_items (api : Option ExtrOracle) (transcription : TransRes)
    (summary : Option SummRes) : ItemsRes :=
  let text := extractionText transcription summary
  if text = [] then
    { action_items := [],
      metadata := { status := "error",
                    error := some "No text provided for action item extraction" } }
  else
    { action_items := extractItemsFromText api text,
      metadata := { status := "completed", error := none } }

/-- Python `text.split('. ')` specialized to the two-character separator used
by `_fallback_summary`. -/
def splitOnDotSpace : List Char → List (List Char)
  | [] => [[]]
  | [c] => [[c]]
  | c :: d :: t =>
    if c = '.' ∧ d = ' ' then
      [] :: splitOnDotSpace t
    else
      match splitOnDotSpace (d :: t) with
      | [] => [[c]]
      | p :: ps => (c :: p) :: ps

/-- Python `'. '.join(pieces)`. -/
def joinDotSpace : List (List Char) → List Char
  | [] => []
  | [x] => x
  | x :: xs => x ++ '.' :: ' ' :: joinDotSpace xs

/-- `SummarizationAgent._fallback_summary` (lines 85-95): join the first
`min 5 (sentence count)` pieces of the `'. '` split, appending a period when
the result is non-empty and does not already end with one. -/
def fallbackSummary (text : List Char) : List Char :=
  let sentences := splitOnDotSpace text
  let summary := joinDotSpace (sentences.take (min 5 sentences.length))
  if summary ≠ [] ∧ summary.getLast? ≠ some '.' then summary ++ ['.']
  else summary

/-- Abstraction of the OpenAI summarization call inside `_generate_summary`
(lines 60-77); `Except.error` models an exception from the API call. -/
abbrev SummOracle := List Char → Except String (List Char)

/-- `SummarizationAgent._generate_summary` (lines 52-83): with an API key,
call the backend and fall back to the extractive summary on failure; without
a key, use the fallback directly. -/
def generateSummary (api : Option SummOracle) (text : List Char) : List Char :=
  match api with
  | some f =>
    match f text with
    | Except.ok s => s
    | Except.error _ => fallbackSummary text
  | none => fallbackSummary text

/-- `SummarizationAgent.summarize` (lines 10-50): empty transcription text
raises `ValueError`, converted by the `except` clause into an error envelope
with an empty summary; otherwise a completed envelope wraps the generated
summary. -/
def summarize (api : Option SummOracle) (transcription : TransRes) : SummRes :=
  let text := transcription.transcription
  if text = [] then
    { summary := [],
      metadata := { status := "error",
                    error := some "No transcription text provided" } }
  else
    { summary := generateSummary api text,
      metadata := { status := "completed", error := none } }

/-- `MeetingAssistantOrchestrator.process_meeting` (`src/orchestrator.py`,
lines 87-141): transcribe, then always summarize, then always extract action
items (passing both upstream envelopes), and return all three envelopes.
The transcription stage is abstracted by the `transcribe` function; the
AutoGen notifications only log and never route control flow, so they are not
modelled. -/
def process_meeting (transcribe : List Char → TransRes)
    (sumApi : Option SummOracle) (extrApi : Option ExtrOracle)
    (audio_file_path : List Char) : MeetingResults :=
  let transcription_result := transcribe audio_file_path
  let summary_result := summarize sumApi transcription_result
  let action_items_result :=
    extract_action_items extrApi transcription_result (some summary_result)
  { transcription := transcription_result,
    summary := summary_result,
    action_items := action_items_result }

end Prototype

set_option maxRecDepth 8192

namespace MA

/-- The numbered-item loop agrees with the spec-side enumerated rendering. -/
theorem renderItems_eq_spec : ∀ (items : List ItemDict) (n : Nat),
    renderItems n items = MASpec.concatAll ((List.enumFrom n items).map (fun q =>
      MASpec.itemEntry q.1 (fstr q.2.task "No task specified")
        (fstr q.2.assignee "Unassigned") (fstr q.2.deadline "No deadline"))) := by
  intro items
  induction items with
  | nil => intro n; rfl
  | cons item rest ih =>
    intro n
    show itemLines n item ++ renderItems (n + 1) rest = _
    rw [ih (n + 1)]
    rfl

/-- Writing the same content to the same path twice equals writing it once. -/
theorem setFile_idem (fs : FileSys) (p : String) (v : ResultsDict) :
    setFile (setFile fs p v) p v = setFile fs p v := by
  unfold setFile
  rw [List.filter_append, List.filter_filter]
  simp

end MA

namespace Prototype

/-- The `'. '` split always yields at least one piece. -/
theorem splitOnDotSpace_ne_nil (s : List Char) : splitOnDotSpace s ≠ [] := by
  match s with
  | [] => simp [splitOnDotSpace]
  | [c] => simp [splitOnDotSpace]
  | c :: d :: t =>
    rw [splitOnDotSpace]
    split
    · simp
    · cases h : splitOnDotSpace (d :: t) <;> simp


/-- Joining the pieces of the `'. '` split reconstructs the original text. -/
theorem joinDotSpace_splitOnDotSpace : ∀ s : List Char,
    joinDotSpace (splitOnDotSpace s) = s := by
  intro s
  match s with
  | [] => rfl
  | [c] => rfl
  | c :: d :: t =>
    rw [splitOnDotSpace]
    split
    · rename_i hcd
      obtain ⟨hc, hd⟩ := hcd
      subst hc; subst hd
      have ih := joinDotSpace_splitOnDotSpace t
      rcases hsp : splitOnDotSpace t with _ | ⟨p, ps⟩
      · exact absurd hsp (splitOnDotSpace_ne_nil t)
      · rw [hsp] at ih
        show [] ++ '.' :: ' ' :: joinDotSpace (p :: ps) = _
        rw [ih]
        rfl
    · have ih := joinDotSpace_splitOnDotSpace (d :: t)
      rcases hsp : splitOnDotSpace (d :: t) with _ | ⟨p, ps⟩
      · exact absurd hsp (splitOnDotSpace_ne_nil (d :: t))
      · rw [hsp] at ih
        rcases ps with _ | ⟨q, qs⟩
        · show c :: p = c :: d :: t
          have : p = d :: t := ih
          rw [this]
        · show (c :: p) ++ '.' :: ' ' :: joinDotSpace (q :: qs) = c :: d :: t
          have : p ++ '.' :: ' ' :: joinDotSpace (q :: qs) = d :: t := ih
          rw [List.cons_append, this]

/-- Taking a prefix of the pieces can only shorten the joined text. -/
theorem joinDotSpace_take_le : ∀ (l : List (List Char)) (k : Nat),
    (joinDotSpace (l.take k)).length ≤ (joinDotSpace l).length := by
  intro l
  induction l with
  | nil => intro k; simp
  | cons x xs ih =>
    intro k
    cases k with
    | zero => simp [joinDotSpace]
    | succ k =>
      rw [List.take_succ_cons]
      cases xs with
      | nil => simp
      | cons y ys =>
        cases k with
        | zero =>
          show (joinDotSpace [x]).length ≤ (joinDotSpace (x :: y :: ys)).length
          show x.length ≤ (x ++ '.' :: ' ' :: joinDotSpace (y :: ys)).length
          simp
        | succ k2 =>
          rw [List.take_succ_cons]
          show (x ++ '.' :: ' ' :: joinDotSpace (y :: List.take k2 ys)).length ≤
            (x ++ '.' :: ' ' :: joinDotSpace (y :: ys)).length
          have h2 := ih (k2 + 1)
          rw [List.take_succ_cons] at h2
          simp only [List.length_append, List.length_cons]
          omega

/-- Unfolded form of `fallbackSummary` (the `let` bindings expanded). -/
theorem fallbackSummary_def (text : List Char) :
    fallbackSummary text =
      (if joinDotSpace ((splitOnDotSpace text).take
            (min 5 (splitOnDotSpace text).length)) ≠ [] ∧
          (joinDotSpace ((splitOnDotSpace text).take
            (min 5 (splitOnDotSpace text).length))).getLast? ≠ some '.'
        then joinDotSpace ((splitOnDotSpace text).take
            (min 5 (splitOnDotSpace text).length)) ++ ['.']
        else joinDotSpace ((splitOnDotSpace text).take
            (min 5 (splitOnDotSpace text).length))) := rfl

/-- The joined prefix of the split of a non-empty text is non-empty. -/
theorem joinTake_ne_nil (text : List Char) (h : text ≠ []) :
    joinDotSpace ((splitOnDotSpace text).take
      (min 5 (splitOnDotSpace text).length)) ≠ [] := by
  rcases hsp : splitOnDotSpace text with _ | ⟨p, ps⟩
  · exact absurd hsp (splitOnDotSpace_ne_nil text)
  rcases ps with _ | ⟨q, qs⟩
  · have hj := joinDotSpace_splitOnDotSpace text
    rw [hsp] at hj
    have hp : p = text := hj
    simp only [List.length_cons, List.length_nil]
    show joinDotSpace (List.take (min 5 1) [p]) ≠ []
    have : min 5 1 = 1 := by decide
    rw [this]
    show joinDotSpace [p] ≠ []
    show p ≠ []
    rw [hp]; exact h
  · simp only [List.length_cons]
    have hk : 2 ≤ min 5 (qs.length + 1 + 1) := le_min (by omega) (by omega)
    obtain ⟨k2, hk2⟩ : ∃ k2, min 5 (qs.length + 1 + 1) = k2 + 2 :=
      ⟨min 5 (qs.length + 1 + 1) - 2, by omega⟩
    rw [hk2, List.take_succ_cons, List.take_succ_cons]
    show p ++ '.' :: ' ' :: joinDotSpace (q :: List.take k2 qs) ≠ []
    simp

/-- A successful `p3TryK` returns a non-trivial prefix of the scanned suffix
as its group-1 capture. -/
theorem p3TryK_take : ∀ (k : Nat) (s w g2 : List Char),
    p3TryK k s = some (w, g2) → ∃ j, 1 ≤ j ∧ j ≤ k ∧ w = s.take j := by
  intro k
  induction k with
  | zero => intro s w g2 hh; simp [p3TryK] at hh
  | succ k ih =>
    intro s w g2 hh
    rw [p3TryK] at hh
    revert hh
    cases hX : ((p3mid (s.drop (k + 1))).map (fun r2 => r2.takeWhile notPunct)).head? with
    | some g => intro hh; simp only [Option.some.injEq, Prod.mk.injEq] at hh
                exact ⟨k + 1, by omega, by omega, hh.1.symm⟩
    | none => intro hh
              obtain ⟨j, h1, h2, h3⟩ := ih s w g2 hh
              exact ⟨j, h1, by omega, h3⟩

/-- Characters inside a prefix no longer than the `takeWhile` run satisfy the
run's predicate. -/
theorem mem_take_of_le_takeWhile (p : Char → Bool) :
    ∀ (s : List Char) (j : Nat), j ≤ (s.takeWhile p).length →
      ∀ c ∈ s.take j, p c = true := by
  intro s
  induction s with
  | nil => intro j _ c hc; simp at hc
  | cons a t ih =>
    intro j hj c hc
    cases j with
    | zero => simp at hc
    | succ j =>
      have hpa : p a = true := by
        by_contra hpa'
        rw [List.takeWhile_cons] at hj
        simp [Bool.eq_false_iff.mpr hpa'] at hj
      rw [List.take_succ_cons] at hc
      rcases List.mem_cons.mp hc with hc | hc
      · rw [hc]; exact hpa
      · refine ih j ?_ c hc
        rw [List.takeWhile_cons, if_pos hpa] at hj
        simpa using hj

/-- A successful pattern-3 search captures a non-empty run of word
characters as group 1. -/
theorem searchP3_word : ∀ (s w g2 : List Char), searchP3 s = some (w, g2) →
    w ≠ [] ∧ ∀ c ∈ w, isWordChar c = true := by
  intro s
  induction s with
  | nil => intro w g2 hh; simp [searchP3] at hh
  | cons a t ih =>
    intro w g2 hh
    rw [searchP3] at hh
    revert hh
    cases hA : p3At (a :: t) with
    | some g =>
      intro hh
      simp only [Option.some.injEq] at hh
      subst hh
      unfold p3At at hA
      obtain ⟨j, hj1, hj2, hj3⟩ := p3TryK_take _ _ _ _ hA
      constructor
      · rw [hj3]
        cases j with
        | zero => omega
        | succ j => simp
      · intro c hc
        rw [hj3] at hc
        exact mem_take_of_le_takeWhile isWordChar (a :: t) j hj2 c hc
    | none => intro hh; exact ih w g2 hh

/-- Word characters are not whitespace. -/
theorem isWordChar_not_pySpace : ∀ c, isWordChar c = true → pySpace c = false := by
  intro c h
  cases hs : pySpace c
  · rfl
  · exfalso
    simp only [pySpace, Bool.or_eq_true, beq_iff_eq, or_assoc] at hs
    rcases hs with rfl | rfl | rfl | rfl | rfl | rfl <;>
      exact absurd h (by decide)

/-- Stripping leaves a whitespace-free string unchanged. -/
theorem pyStrip_eq_self (w : List Char) (hw : ∀ c ∈ w, pySpace c = false) :
    pyStrip w = w := by
  have hdrop : ∀ l : List Char, (∀ c ∈ l, pySpace c = false) →
      l.dropWhile pySpace = l := by
    intro l hl
    cases l with
    | nil => rfl
    | cons a t => rw [List.dropWhile_cons, hl a (List.mem_cons_self a t)]; simp
  unfold pyStrip
  rw [hdrop w hw, hdrop w.reverse (fun c hc => hw c (List.mem_reverse.mp hc))]
  exact List.reverse_reverse w

end Prototype

/-- C3: for every audio path that does not refer to an existing file,
`process_meeting` raises a hard failure (modelled as `Except.error`, the
`FileNotFoundError` path) instead of returning a results dictionary; the
method contains no file-writing operation on any path, so no output files
are produced. -/
theorem c3_missing_audio_hard_failure (fileExists : String → Bool) (p : String)
    (h : fileExists p = false) :
    MA.process_meeting fileExists p = Except.error ("Audio file not found: " ++ p) := by
  simp [MA.process_meeting, h]

/-- Witness for C3 at a concrete missing file. -/
theorem c3_missing_audio_hard_failure_witness :
    MA.process_meeting (fun _ => false) "missing.wav" =
      Except.error ("Audio file not found: " ++ "missing.wav") :=
  c3_missing_audio_hard_failure (fun _ => false) "missing.wav" rfl

/-- C4: for every results dictionary missing at least one of the three
required keys, `generate_report` raises the missing-required-field hard
failure (modelled as `Except.error`, the `KeyError` path) naming a missing
key, instead of returning a report string. -/
theorem c4_missing_field_hard_failure (r : MA.ResultsDict)
    (h : r.transcription = none ∨ r.summary = none ∨ r.action_items = none) :
    ∃ f, ((f = "transcription" ∧ r.transcription = none) ∨
          (f = "summary" ∧ r.summary = none) ∨
          (f = "action_items" ∧ r.action_items = none)) ∧
      MA.generate_report r = Except.error ("Missing required field: " ++ f) := by
  cases htr : r.transcription with
  | none =>
    refine ⟨"transcription", Or.inl ⟨rfl, rfl⟩, ?_⟩
    simp [MA.generate_report, htr]
  | some td =>
    cases hsm : r.summary with
    | none =>
      refine ⟨"summary", Or.inr (Or.inl ⟨rfl, rfl⟩), ?_⟩
      simp [MA.generate_report, htr, hsm]
    | some sd =>
      cases hai : r.action_items with
      | none =>
        refine ⟨"action_items", Or.inr (Or.inr ⟨rfl, rfl⟩), ?_⟩
        simp [MA.generate_report, htr, hsm, hai]
      | some ad =>
        rw [htr, hsm, hai] at h
        simp at h

/-- Witness for C4 at a concrete dictionary missing every key. -/
theorem c4_missing_field_hard_failure_witness :
    ∃ f, ((f = "transcription" ∧
            (MA.ResultsDict.mk none none none).transcription = none) ∨
          (f = "summary" ∧ (MA.ResultsDict.mk none none none).summary = none) ∨
          (f = "action_items" ∧
            (MA.ResultsDict.mk none none none).action_items = none)) ∧
      MA.generate_report (MA.ResultsDict.mk none none none) =
        Except.error ("Missing required field: " ++ f) :=
  c4_missing_field_hard_failure (MA.ResultsDict.mk none none none) (Or.inl rfl)

/-- C10: for any two existing audio paths (even under different file
systems), the package orchestrator's `process_meeting` returns the same
constant mock dictionary, so two runs are indistinguishable from their
outputs. -/
theorem c10_constant_result (ex1 ex2 : String → Bool) (p1 p2 : String)
    (h1 : ex1 p1 = true) (h2 : ex2 p2 = true) :
    MA.process_meeting ex1 p1 = Except.ok MA.mockResults ∧
    MA.process_meeting ex1 p1 = MA.process_meeting ex2 p2 := by
  simp [MA.process_meeting, h1, h2]

/-- Witness for C10 at two concrete distinct paths. -/
theorem c10_constant_result_witness :
    MA.process_meeting (fun _ => true) "a.wav" = Except.ok MA.mockResults ∧
    MA.process_meeting (fun _ => true) "a.wav" =
      MA.process_meeting (fun _ => true) "b.wav" :=
  c10_constant_result (fun _ => true) (fun _ => true) "a.wav" "b.wav" rfl rfl

/-- C7 counterexample: two `save_results` calls with the same results and the
same destination write to the same single file (the second call overwrites
the first), not to two distinct timestamp-derived file pairs. -/
theorem c7_counterexample :
    MA.save_results MA.mockResults "results/out.json" [] =
      Except.ok [("results/out.json", MA.mockResults)] ∧
    (MA.save_results MA.mockResults "results/out.json" []).bind
        (MA.save_results MA.mockResults "results/out.json") =
      Except.ok [("results/out.json", MA.mockResults)] ∧
    [("results/out.json", MA.mockResults)].length = 1 :=
  ⟨rfl, rfl, rfl⟩

/-- C7 (amended): `save_results` writes one JSON document at exactly the
caller-supplied relative path (no timestamp-derived name, no Markdown
report file); calling it again with the same arguments overwrites that same
file, leaving the file system unchanged. -/
theorem c7_save_overwrite_amended (res : MA.ResultsDict) (p : String)
    (fs : MA.FileSys) (h : MA.isAbsolutePath p = false) :
    MA.save_results res p fs = Except.ok (MA.setFile fs p res) ∧
    (MA.save_results res p fs).bind (MA.save_results res p) =
      MA.save_results res p fs := by
  have hsave : MA.save_results res p fs = Except.ok (MA.setFile fs p res) := by
    simp [MA.save_results, h]
  refine ⟨hsave, ?_⟩
  rw [hsave]
  show MA.save_results res p (MA.setFile fs p res) = _
  simp [MA.save_results, h, MA.setFile_idem]

/-- Witness for the amended C7 at a concrete save. -/
theorem c7_save_overwrite_amended_witness :
    MA.save_results MA.mockResults "out.json" [] =
      Except.ok (MA.setFile [] "out.json" MA.mockResults) ∧
    (MA.save_results MA.mockResults "out.json" []).bind
        (MA.save_results MA.mockResults "out.json") =
      MA.save_results MA.mockResults "out.json" [] :=
  c7_save_overwrite_amended MA.mockResults "out.json" [] rfl

/-- C8 counterexample: a parent-escaping relative destination (leading
`".."`) is not rejected: `save_results` succeeds and writes the file outside
the intended workspace. -/
theorem c8_counterexample :
    MA.save_results MA.mockResults "../escape/results.json" [] =
      Except.ok [("../escape/results.json", MA.mockResults)] ∧
    "..".data.isPrefixOf "../escape/results.json".data = true :=
  ⟨rfl, rfl⟩

/-- C8 (amended): only absolute destination paths are rejected as a hard
failure with nothing written; every relative path — including
parent-escaping ones — is accepted and written. -/
theorem c8_absolute_only_amended (res : MA.ResultsDict) (p : String)
    (fs : MA.FileSys) :
    (MA.isAbsolutePath p = true →
      MA.save_results res p fs =
        Except.error ("Invalid output path: " ++ p ++ ". Must be a relative path.")) ∧
    (MA.isAbsolutePath p = false →
      MA.save_results res p fs = Except.ok (MA.setFile fs p res)) := by
  constructor <;> intro h <;> simp [MA.save_results, h]

/-- Witness for the amended C8 at a concrete absolute path. -/
theorem c8_absolute_only_amended_witness :
    MA.save_results MA.mockResults "/abs/out.json" [] =
      Except.error ("Invalid output path: " ++ "/abs/out.json" ++
        ". Must be a relative path.") :=
  (c8_absolute_only_amended MA.mockResults "/abs/out.json" []).1 rfl

/-- C5 counterexample: on a well-formed result whose summary value is the
empty string and whose single action item carries explicit null assignee and
deadline, the report renders the summary section blank (no placeholder
sentence) and renders `None` — not `Unassigned` — for the null assignee. -/
theorem c5_counterexample :
    MA.generate_report
      { transcription := some { transcription := some "hello world",
                                metadata := { status := "completed" } },
        summary := some { summary := some "",
                          metadata := { status := "completed" } },
        action_items := some
          { action_items := some
              [ { task := some (some "Do it"), assignee := some none,
                  deadline := some none } ],
            metadata := { status := "completed" } } } =
      Except.ok ("# Meeting Assistant Report\n\n## Meeting Summary\n\n\n\n## Action Items\n\n1. **Task**: Do it\n   **Assignee**: None\n   **Deadline**: None\n\n## Full Transcription\n\nhello world") ∧
    ("## Meeting Summary\n\n\n\n## Action Items".data <:+:
      "# Meeting Assistant Report\n\n## Meeting Summary\n\n\n\n## Action Items\n\n1. **Task**: Do it\n   **Assignee**: None\n   **Deadline**: None\n\n## Full Transcription\n\nhello world".data) ∧
    ("**Assignee**: None".data <:+:
      "# Meeting Assistant Report\n\n## Meeting Summary\n\n\n\n## Action Items\n\n1. **Task**: Do it\n   **Assignee**: None\n   **Deadline**: None\n\n## Full Transcription\n\nhello world".data) ∧
    ¬ ("Unassigned".data <:+:
      "# Meeting Assistant Report\n\n## Meeting Summary\n\n\n\n## Action Items\n\n1. **Task**: Do it\n   **Assignee**: None\n   **Deadline**: None\n\n## Full Transcription\n\nhello world".data) := by
  refine ⟨rfl, by decide, by decide, by decide⟩

/-- C5 (amended): for every well-formed result (all three top-level keys
present), `generate_report` returns exactly the spec-shaped Markdown
document: fixed headings `# Meeting Assistant Report`, `## Meeting Summary`,
`## Action Items`, `## Full Transcription` in that order, items numbered
from 1 as `N. **Task**: ... **Assignee**: ... **Deadline**: ...`, the
placeholder `No action items identified.` exactly when the item list is
empty — but the `Unassigned` / `No deadline` / summary and transcription
placeholders are substituted only for missing dictionary keys: explicit null
values render as `None`, and an empty-string summary is rendered blank. -/
theorem c5_report_shape_amended (td : MA.TransDict) (sd : MA.SummDict)
    (ad : MA.ItemsDict) (r : MA.ResultsDict)
    (h1 : r.transcription = some td) (h2 : r.summary = some sd)
    (h3 : r.action_items = some ad) :
    MA.generate_report r =
      Except.ok (MASpec.report (sd.summary.getD "No summary available")
        (ad.action_items.getD [])
        (td.transcription.getD "No transcription available")) := by
  obtain ⟨a, b, c⟩ := r
  simp only [] at h1 h2 h3
  subst h1; subst h2; subst h3
  simp only [MA.generate_report, MA.getSummaryText, MA.getTransText, MA.getItems,
    Option.isNone_some, Bool.false_eq_true, if_false,
    MASpec.report, MASpec.titleSection, MASpec.summarySection,
    MASpec.itemsSection, MASpec.transcriptSection]
  rcases hit : ad.action_items.getD [] with _ | ⟨it, rest⟩
  · simp only [List.isEmpty_nil, if_true, String.append_assoc]
  · simp only [List.isEmpty_cons, Bool.false_eq_true, if_false]
    rw [MA.renderItems_eq_spec (it :: rest) 1]
    simp only [String.append_assoc]
    rfl

/-- Witness for the amended C5 at the concrete mock results. -/
theorem c5_report_shape_amended_witness :
    MA.generate_report MA.mockResults =
      Except.ok (MASpec.report
        ((MA.SummDict.mk (some "Test summary")
            (MA.MetaDict.mk "completed")).summary.getD "No summary available")
        ((MA.ItemsDict.mk
            (some [ MA.ItemDict.mk (some (some "Test task"))
                      (some (some "John")) (some (some "tomorrow")) ])
            (MA.MetaDict.mk "completed")).action_items.getD [])
        ((MA.TransDict.mk (some "Test transcription")
            (MA.MetaDict.mk "completed")).transcription.getD
          "No transcription available")) :=
  c5_report_shape_amended
    (MA.TransDict.mk (some "Test transcription") (MA.MetaDict.mk "completed"))
    (MA.SummDict.mk (some "Test summary") (MA.MetaDict.mk "completed"))
    (MA.ItemsDict.mk
      (some [ MA.ItemDict.mk (some (some "Test task"))
                (some (some "John")) (some (some "tomorrow")) ])
      (MA.MetaDict.mk "completed"))
    MA.mockResults rfl rfl rfl

/-- C2: on empty text content both `summarize` (empty transcription text) and
`extract_action_items` (empty combined text) return an error envelope with an
error detail string and an empty payload, and the configured backend is never
consulted (the result is identical under any two backend oracles); the error
is an ordinary return value of the total function, not an exception. -/
theorem c2_empty_input_soft_error
    (sumA sumB : Option Prototype.SummOracle)
    (extA extB : Option Prototype.ExtrOracle)
    (tr : Prototype.TransRes) (summary : Option Prototype.SummRes)
    (h : tr.transcription = []) :
    (Prototype.summarize sumA tr =
        { summary := [],
          metadata := { status := "error",
                        error := some "No transcription text provided" } } ∧
      Prototype.summarize sumA tr = Prototype.summarize sumB tr) ∧
    (Prototype.extractionText tr summary = [] →
      Prototype.extract_action_items extA tr summary =
          { action_items := [],
            metadata := { status := "error",
                          error := some "No text provided for action item extraction" } } ∧
        Prototype.extract_action_items extA tr summary =
          Prototype.extract_action_items extB tr summary) := by
  constructor
  · constructor <;> simp [Prototype.summarize, h]
  · intro he
    constructor <;> simp [Prototype.extract_action_items, he]

/-- Witness for C2 at concrete backends and an empty transcription. -/
theorem c2_empty_input_soft_error_witness :
    Prototype.summarize (some (fun t => Except.ok ('x' :: t)))
        { transcription := [], metadata := { status := "completed", error := none } } =
      { summary := [],
        metadata := { status := "error",
                      error := some "No transcription text provided" } } ∧
    Prototype.extract_action_items (some (fun _ => Except.ok []))
        { transcription := [], metadata := { status := "completed", error := none } }
        none =
      { action_items := [],
        metadata := { status := "error",
                      error := some "No text provided for action item extraction" } } :=
  ⟨(c2_empty_input_soft_error (some (fun t => Except.ok ('x' :: t))) none
      (some (fun _ => Except.ok [])) none
      { transcription := [], metadata := { status := "completed", error := none } }
      none rfl).1.1,
   ((c2_empty_input_soft_error (some (fun t => Except.ok ('x' :: t))) none
      (some (fun _ => Except.ok [])) none
      { transcription := [], metadata := { status := "completed", error := none } }
      none rfl).2 rfl).1⟩

/-- C6 counterexample: on the non-empty input `"hello"` the fallback summary
is `"hello."`, whose length exceeds the input length, refuting the claimed
`length ≤ input length` bound (the appended period can lengthen the text). -/
theorem c6_counterexample :
    Prototype.summarize none
        { transcription := "hello".data,
          metadata := { status := "completed", error := none } } =
      { summary := "hello.".data,
        metadata := { status := "completed", error := none } } ∧
    ("hello.".data).length = ("hello".data).length + 1 := by
  constructor <;> decide

/-- C6 (amended): for every non-empty transcript text, the key-less
summarization path returns a completed envelope whose payload is the
extractive fallback: the `'. '`-join of the first `min 5 (piece count)`
pieces of the `'. '` split, possibly with one period appended; the payload
is non-empty, ends with a period, and its length is at most the input
length plus one. -/
theorem c6_fallback_amended (text : List Char) (m : Prototype.MetaInfo)
    (h : text ≠ []) :
    Prototype.summarize none { transcription := text, metadata := m } =
      { summary := Prototype.fallbackSummary text,
        metadata := { status := "completed", error := none } } ∧
    Prototype.fallbackSummary text ≠ [] ∧
    (Prototype.fallbackSummary text).getLast? = some '.' ∧
    (Prototype.fallbackSummary text).length ≤ text.length + 1 ∧
    (Prototype.fallbackSummary text =
        Prototype.joinDotSpace ((Prototype.splitOnDotSpace text).take
          (min 5 (Prototype.splitOnDotSpace text).length)) ∨
      Prototype.fallbackSummary text =
        Prototype.joinDotSpace ((Prototype.splitOnDotSpace text).take
          (min 5 (Prototype.splitOnDotSpace text).length)) ++ ['.']) := by
  have hne := Prototype.joinTake_ne_nil text h
  have hlen : (Prototype.joinDotSpace ((Prototype.splitOnDotSpace text).take
      (min 5 (Prototype.splitOnDotSpace text).length))).length ≤ text.length := by
    calc (Prototype.joinDotSpace ((Prototype.splitOnDotSpace text).take
            (min 5 (Prototype.splitOnDotSpace text).length))).length
        ≤ (Prototype.joinDotSpace (Prototype.splitOnDotSpace text)).length :=
          Prototype.joinDotSpace_take_le _ _
      _ = text.length := by rw [Prototype.joinDotSpace_splitOnDotSpace]
  refine ⟨?_, ?_, ?_, ?_, ?_⟩
  · simp [Prototype.summarize, h, Prototype.generateSummary]
  · rw [Prototype.fallbackSummary_def]
    split
    · simp
    · exact hne
  · rw [Prototype.fallbackSummary_def]
    split
    · exact List.getLast?_concat _
    · rename_i hcond
      push_neg at hcond
      exact hcond hne
  · rw [Prototype.fallbackSummary_def]
    split
    · simp only [List.length_append, List.length_cons, List.length_nil]
      omega
    · omega
  · rw [Prototype.fallbackSummary_def]
    split
    · right; rfl
    · left; rfl

/-- Witness for the amended C6 at the concrete input `"hello"`. -/
theorem c6_fallback_amended_witness :
    Prototype.summarize none
        { transcription := "hello".data,
          metadata := { status := "completed", error := none } } =
      { summary := Prototype.fallbackSummary "hello".data,
        metadata := { status := "completed", error := none } } ∧
    Prototype.fallbackSummary "hello".data ≠ [] ∧
    (Prototype.fallbackSummary "hello".data).getLast? = some '.' ∧
    (Prototype.fallbackSummary "hello".data).length ≤ "hello".data.length + 1 ∧
    (Prototype.fallbackSummary "hello".data =
        Prototype.joinDotSpace ((Prototype.splitOnDotSpace "hello".data).take
          (min 5 (Prototype.splitOnDotSpace "hello".data).length)) ∨
      Prototype.fallbackSummary "hello".data =
        Prototype.joinDotSpace ((Prototype.splitOnDotSpace "hello".data).take
          (min 5 (Prototype.splitOnDotSpace "hello".data).length)) ++ ['.']) :=
  c6_fallback_amended "hello".data { status := "completed", error := none }
    (by decide)

/-- C1 counterexample: when the transcription stage reports an error
envelope (empty text), the pipeline still runs every stage, but the
extraction stage does not turn the upstream error into its own error
envelope: its combined input is the separator text `"\n\n"`, which passes
the emptiness precondition, so the stage completes with zero items while
only the summarization stage reports an error. -/
theorem c1_counterexample :
    (Prototype.process_meeting
        (fun _ => { transcription := [],
                    metadata := { status := "error",
                                  error := some "Speech backend unreachable" } })
        none none "meeting.wav".data).transcription.metadata.status = "error" ∧
    (Prototype.process_meeting
        (fun _ => { transcription := [],
                    metadata := { status := "error",
                                  error := some "Speech backend unreachable" } })
        none none "meeting.wav".data).summary.metadata.status = "error" ∧
    (Prototype.process_meeting
        (fun _ => { transcription := [],
                    metadata := { status := "error",
                                  error := some "Speech backend unreachable" } })
        none none "meeting.wav".data).action_items.metadata.status = "completed" ∧
    ("completed" : String) ≠ "error" := by
  refine ⟨rfl, rfl, rfl, by decide⟩

/-- C1 (amended): the pipeline never short-circuits — `process_meeting`
always returns all three stage envelopes.  When the transcription envelope
carries empty text (the error-envelope invariant), the summarization stage's
precondition check turns it into its own error envelope without consulting
any summarization backend, while the extraction stage (fallback
configuration) receives the transcript joined to the empty summary by
`"\n\n"`, passes its emptiness precondition, and returns a completed
envelope with an empty item list rather than an error envelope. -/
theorem c1_pipeline_amended (transcribe : List Char → Prototype.TransRes)
    (sumApi : Option Prototype.SummOracle) (path : List Char)
    (h : (transcribe path).transcription = []) :
    Prototype.process_meeting transcribe sumApi none path =
      { transcription := transcribe path,
        summary := { summary := [],
                     metadata := { status := "error",
                                   error := some "No transcription text provided" } },
        action_items := { action_items := [],
                          metadata := { status := "completed", error := none } } } := by
  have hsum : Prototype.summarize sumApi (transcribe path) =
      { summary := [],
        metadata := { status := "error",
                      error := some "No transcription text provided" } } := by
    simp [Prototype.summarize, h]
  have hreg : Prototype.extract_with_regex ['\n', '\n'] = [] := by decide
  have htext : Prototype.extractionText (transcribe path)
      (some { summary := [],
              metadata := { status := "error",
                            error := some "No transcription text provided" } }) =
      ['\n', '\n'] := by
    simp [Prototype.extractionText, h]
  have hext : Prototype.extract_action_items none (transcribe path)
      (some { summary := [],
              metadata := { status := "error",
                            error := some "No transcription text provided" } }) =
      { action_items := [],
        metadata := { status := "completed", error := none } } := by
    simp [Prototype.extract_action_items, htext, Prototype.extractItemsFromText, hreg]
  show ({ transcription := transcribe path,
          summary := Prototype.summarize sumApi (transcribe path),
          action_items := Prototype.extract_action_items none (transcribe path)
            (some (Prototype.summarize sumApi (transcribe path))) } :
        Prototype.MeetingResults) = _
  rw [hsum, hext]

/-- Witness for the amended C1 at a concrete erroring transcription backend. -/
theorem c1_pipeline_amended_witness :
    Prototype.process_meeting
        (fun _ => { transcription := [],
                    metadata := { status := "error", error := some "decode failure" } })
        (some (fun t => Except.ok t)) none "audio.mp3".data =
      { transcription :=
          { transcription := [],
            metadata := { status := "error", error := some "decode failure" } },
        summary := { summary := [],
                     metadata := { status := "error",
                                   error := some "No transcription text provided" } },
        action_items := { action_items := [],
                          metadata := { status := "completed", error := none } } } :=
  c1_pipeline_amended
    (fun _ => { transcription := [],
                metadata := { status := "error", error := some "decode failure" } })
    (some (fun t => Except.ok t)) "audio.mp3".data rfl

/-- C9 counterexample: the sentence `"Alice needs to review the budget"`
matches neither the modal-obligation nor the explicit-marker pattern, and
matches the subject-plus-modal pattern with remainder
`"review the budget"`; yet the emitted action item's task is the leading
word `"Alice"` itself (the pattern's group 1), not that remainder. -/
theorem c9_counterexample :
    Prototype.searchP1 (Prototype.pyStrip "Alice needs to review the budget".data) =
      none ∧
    Prototype.searchP2 (Prototype.pyStrip "Alice needs to review the budget".data) =
      none ∧
    Prototype.searchP3 (Prototype.pyStrip "Alice needs to review the budget".data) =
      some ("Alice".data, "review the budget".data) ∧
    Prototype.extract_from_sentence "Alice needs to review the budget".data =
      some { task := "Alice".data, assignee := some "Alice".data,
             deadline := none } ∧
    "Alice".data ≠ "review the budget".data := by
  refine ⟨by decide, by decide, by decide, by decide, by decide⟩

/-- C9 (amended): for every sentence whose stripped text matches neither the
modal-obligation pattern nor the explicit-marker pattern but matches the
subject-plus-modal pattern, the extractor emits an action item whose task is
the captured leading word itself (the pattern's group 1) — the remainder
after the modal is captured as group 2 but discarded — while the assignee
and deadline come from their own independent searches. -/
theorem c9_subject_modal_amended (sentence w g2 : List Char)
    (h1 : Prototype.searchP1 (Prototype.pyStrip sentence) = none)
    (h2 : Prototype.searchP2 (Prototype.pyStrip sentence) = none)
    (h3 : Prototype.searchP3 (Prototype.pyStrip sentence) = some (w, g2)) :
    Prototype.extract_from_sentence sentence =
      some { task := w,
             assignee := Prototype.searchAssignee (Prototype.pyStrip sentence),
             deadline := Prototype.searchDeadline (Prototype.pyStrip sentence) } ∧
    w ≠ [] := by
  obtain ⟨hw_ne, hw_word⟩ := Prototype.searchP3_word _ w g2 h3
  have hs_ne : Prototype.pyStrip sentence ≠ [] := by
    intro hnil
    rw [hnil] at h3
    simp [Prototype.searchP3] at h3
  have hstrip : Prototype.pyStrip w = w :=
    Prototype.pyStrip_eq_self w (fun c hc =>
      Prototype.isWordChar_not_pySpace c (hw_word c hc))
  have hft : Prototype.firstTaskGroup (Prototype.pyStrip sentence) = some w := by
    simp [Prototype.firstTaskGroup, h1, h2, h3]
  refine ⟨?_, hw_ne⟩
  simp [Prototype.extract_from_sentence, hs_ne, hft, hstrip, hw_ne]

/-- Witness for the amended C9 at the concrete subject-plus-modal sentence. -/
theorem c9_subject_modal_amended_witness :
    Prototype.extract_from_sentence "Alice needs to review the budget".data =
      some { task := "Alice".data,
             assignee := Prototype.searchAssignee
               (Prototype.pyStrip "Alice needs to review the budget".data),
             deadline := Prototype.searchDeadline
               (Prototype.pyStrip "Alice needs to review the budget".data) } ∧
    "Alice".data ≠ [] :=
  c9_subject_modal_amended "Alice needs to review the budget".data
    "Alice".data "review the budget".data (by decide) (by decide) (by decide)
